import Mathlib

/-!
Verification of the HydraX rainwater-harvesting backend.

Shallow embedding of the pipeline from `backend/services/building_service.py`,
`backend/services/rainfall_service.py`, `backend/processing/rain_calc.py` and
`backend/routes/geocoding.py`.  Real-valued quantities of the Python code are
modelled as rationals (`ℚ`); the trained scikit-learn regressor and the real
square root used inside the rolling standard deviation are modelled as opaque
function parameters, since no claim depends on their numeric values.
-/

namespace HydraX

/-! ## Building locator (`backend/services/building_service.py`) -/

/-- A row of the `rooftops` table: easting, northing, rooftop area. -/
structure Building where
  easting : ℚ
  northing : ℚ
  area : ℚ
deriving DecidableEq, Repr

/-- Squared planar Euclidean distance from the query point `(e, n)` to a
building.  The source computes `math.sqrt` of this quantity; all comparisons of
those square roots agree with comparisons of the squares, which is proved where
needed via monotonicity of `Real.sqrt`. -/
def dist2 (e n : ℚ) (b : Building) : ℚ :=
  (e - b.easting) ^ 2 + (n - b.northing) ^ 2

/-- One iteration of the scan loop of `find_nearest_building`.  The state is
`(min_distance, nearest_area)`; `none` stands for the initial state
`min_distance = inf, nearest_area = None`.  The comparison
`distance < min_distance` is strict, so an exact tie keeps the earlier row. -/
def scanStep (e n : ℚ) (st : Option (ℚ × ℚ)) (b : Building) : Option (ℚ × ℚ) :=
  match st with
  | none => some (dist2 e n b, b.area)
  | some (m, a) => if dist2 e n b < m then some (dist2 e n b, b.area) else some (m, a)

/-- Model of `find_nearest_building`: raises `BuildingNotFoundError` (modelled as
`Except.error`) when the table is empty, otherwise scans every row and returns
the area of the closest one together with its squared distance (the source
returns the distance itself, i.e. the square root of the second component). -/
def findNearestBuilding (e n : ℚ) (bs : List Building) : Except String (ℚ × ℚ) :=
  match bs.foldl (scanStep e n) none with
  | none => Except.error "No buildings found in database"
  | some (m, a) => Except.ok (a, m)

theorem dist2_nonneg (e n : ℚ) (b : Building) : 0 ≤ dist2 e n b :=
  add_nonneg (sq_nonneg _) (sq_nonneg _)

theorem sqrtQ_le_sqrtQ {q q' : ℚ} (h : q ≤ q') :
    Real.sqrt (q : ℝ) ≤ Real.sqrt (q' : ℝ) :=
  Real.sqrt_le_sqrt (by exact_mod_cast h)

theorem sqrtQ_lt_sqrtQ {q q' : ℚ} (h0 : 0 ≤ q) (h : q < q') :
    Real.sqrt (q : ℝ) < Real.sqrt (q' : ℝ) :=
  Real.sqrt_lt_sqrt (by exact_mod_cast h0) (by exact_mod_cast h)

/-- Invariant of the scan loop: starting from a best-so-far `(m, a)`, the fold
either keeps `(m, a)` (and then `m` is at most every distance in the remaining
list) or returns the first strict improvement that is minimal over the rest. -/
theorem scanStep_foldl_spec (e n : ℚ) (l : List Building) :
    ∀ m a : ℚ, ∃ r, l.foldl (scanStep e n) (some (m, a)) = some r ∧
      ((r = (m, a) ∧ ∀ x ∈ l, m ≤ dist2 e n x) ∨
       (∃ i, ∃ hi : i < l.length, r = (dist2 e n (l.get ⟨i, hi⟩), (l.get ⟨i, hi⟩).area) ∧
         dist2 e n (l.get ⟨i, hi⟩) < m ∧
         (∀ x ∈ l, dist2 e n (l.get ⟨i, hi⟩) ≤ dist2 e n x) ∧
         (∀ j, ∀ hj : j < l.length, j < i →
           dist2 e n (l.get ⟨i, hi⟩) < dist2 e n (l.get ⟨j, hj⟩)))) := by
  induction l with
  | nil =>
    intro m a
    exact ⟨(m, a), rfl, Or.inl ⟨rfl, by simp⟩⟩
  | cons c cs ih =>
    intro m a
    by_cases h : dist2 e n c < m
    · obtain ⟨r, hr, hcase⟩ := ih (dist2 e n c) c.area
      refine ⟨r, ?_, ?_⟩
      · simpa [scanStep, h] using hr
      · right
        rcases hcase with ⟨hreq, hmin⟩ | ⟨i, hi, hreq, hlt, hmin, htie⟩
        · refine ⟨0, by simp, by simpa using hreq, h, ?_, ?_⟩
          · intro x hx
            rcases List.mem_cons.mp hx with hx | hx
            · simp [hx]
            · simpa using hmin x hx
          · intro j hj hj0
            omega
        · refine ⟨i + 1, by simpa using Nat.succ_lt_succ hi, ?_, ?_, ?_, ?_⟩
          · simpa using hreq
          · exact lt_trans hlt h
          · intro x hx
            rcases List.mem_cons.mp hx with hx | hx
            · rw [hx]
              simpa using le_of_lt hlt
            · simpa using hmin x hx
          · intro j hj hji
            match j, hj with
            | 0, _ => simpa using hlt
            | k + 1, hj =>
              have hk : k < i := by omega
              simpa using htie k (by omega) hk
    · obtain ⟨r, hr, hcase⟩ := ih m a
      refine ⟨r, ?_, ?_⟩
      · simpa [scanStep, h] using hr
      · rcases hcase with ⟨hreq, hmin⟩ | ⟨i, hi, hreq, hlt, hmin, htie⟩
        · refine Or.inl ⟨hreq, ?_⟩
          intro x hx
          rcases List.mem_cons.mp hx with hx | hx
          · rw [hx]
            exact not_lt.mp h
          · exact hmin x hx
        · refine Or.inr ⟨i + 1, by simpa using Nat.succ_lt_succ hi, by simpa using hreq,
            hlt, ?_, ?_⟩
          · intro x hx
            rcases List.mem_cons.mp hx with hx | hx
            · rw [hx]
              exact le_of_lt (lt_of_lt_of_le hlt (not_lt.mp h))
            · simpa using hmin x hx
          · intro j hj hji
            match j, hj with
            | 0, _ => simpa using lt_of_lt_of_le hlt (not_lt.mp h)
            | k + 1, hj =>
              have hk : k < i := by omega
              simpa using htie k (by omega) hk

/-- C1: on a non-empty table, `find_nearest_building` returns the area of a row
whose planar Euclidean distance to the query point is minimal, and on an exact
tie the first minimum in scan order wins (every earlier row is strictly
farther). -/
theorem findNearestBuilding_min (e n : ℚ) (bs : List Building) (h : bs ≠ []) :
    ∃ i, ∃ hi : i < bs.length,
      findNearestBuilding e n bs
        = Except.ok ((bs.get ⟨i, hi⟩).area, dist2 e n (bs.get ⟨i, hi⟩)) ∧
      (∀ j, ∀ hj : j < bs.length,
        Real.sqrt ((dist2 e n (bs.get ⟨i, hi⟩) : ℚ) : ℝ)
          ≤ Real.sqrt ((dist2 e n (bs.get ⟨j, hj⟩) : ℚ) : ℝ)) ∧
      (∀ j, ∀ hj : j < bs.length, j < i →
        Real.sqrt ((dist2 e n (bs.get ⟨i, hi⟩) : ℚ) : ℝ)
          < Real.sqrt ((dist2 e n (bs.get ⟨j, hj⟩) : ℚ) : ℝ)) := by
  match bs, h with
  | c :: cs, _ =>
    have hfold : (c :: cs).foldl (scanStep e n) none
        = cs.foldl (scanStep e n) (some (dist2 e n c, c.area)) := rfl
    obtain ⟨r, hr, hcase⟩ := scanStep_foldl_spec e n cs (dist2 e n c) c.area
    rcases hcase with ⟨hreq, hmin⟩ | ⟨i, hi, hreq, hlt, hmin, htie⟩
    · refine ⟨0, by simp, ?_, ?_, ?_⟩
      · simp only [findNearestBuilding, hfold, hr, hreq]
        rfl
      · intro j hj
        match j, hj with
        | 0, _ => exact le_refl _
        | k + 1, hj =>
          have hj' : k < cs.length := by
            simp only [List.length_cons] at hj
            omega
          exact sqrtQ_le_sqrtQ (by simpa using hmin (cs.get ⟨k, hj'⟩) (cs.get_mem k hj'))
      · intro j hj hj0
        omega
    · refine ⟨i + 1, by simpa using Nat.succ_lt_succ hi, ?_, ?_, ?_⟩
      · simp only [findNearestBuilding, hfold, hr, hreq]
        simp
      · intro j hj
        match j, hj with
        | 0, _ => exact sqrtQ_le_sqrtQ (by simpa using le_of_lt hlt)
        | k + 1, hj =>
          have hj' : k < cs.length := by
            simp only [List.length_cons] at hj
            omega
          exact sqrtQ_le_sqrtQ (by simpa using hmin (cs.get ⟨k, hj'⟩) (cs.get_mem k hj'))
      · intro j hj hji
        match j, hj with
        | 0, _ =>
          exact sqrtQ_lt_sqrtQ (dist2_nonneg _ _ _) (by simpa using hlt)
        | k + 1, hj =>
          have hj' : k < cs.length := by
            simp only [List.length_cons] at hj
            omega
          have hk : k < i := by omega
          exact sqrtQ_lt_sqrtQ (dist2_nonneg _ _ _) (by simpa using htie k hj' hk)

/-- Closed instance of `findNearestBuilding_min` at a concrete table. -/
theorem findNearestBuilding_min_witness :
    (([⟨0, 0, 7⟩, ⟨3, 4, 9⟩] : List Building) ≠ []) ∧
    ∃ i, ∃ hi : i < ([⟨0, 0, 7⟩, ⟨3, 4, 9⟩] : List Building).length,
      findNearestBuilding 0 0 [⟨0, 0, 7⟩, ⟨3, 4, 9⟩]
        = Except.ok ((([⟨0, 0, 7⟩, ⟨3, 4, 9⟩] : List Building).get ⟨i, hi⟩).area,
            dist2 0 0 (([⟨0, 0, 7⟩, ⟨3, 4, 9⟩] : List Building).get ⟨i, hi⟩)) ∧
      (∀ j, ∀ hj : j < ([⟨0, 0, 7⟩, ⟨3, 4, 9⟩] : List Building).length,
        Real.sqrt ((dist2 0 0 (([⟨0, 0, 7⟩, ⟨3, 4, 9⟩] : List Building).get ⟨i, hi⟩) : ℚ) : ℝ)
          ≤ Real.sqrt
              ((dist2 0 0 (([⟨0, 0, 7⟩, ⟨3, 4, 9⟩] : List Building).get ⟨j, hj⟩) : ℚ) : ℝ)) ∧
      (∀ j, ∀ hj : j < ([⟨0, 0, 7⟩, ⟨3, 4, 9⟩] : List Building).length, j < i →
        Real.sqrt ((dist2 0 0 (([⟨0, 0, 7⟩, ⟨3, 4, 9⟩] : List Building).get ⟨i, hi⟩) : ℚ) : ℝ)
          < Real.sqrt
              ((dist2 0 0 (([⟨0, 0, 7⟩, ⟨3, 4, 9⟩] : List Building).get ⟨j, hj⟩) : ℚ) : ℝ)) :=
  ⟨by decide, findNearestBuilding_min 0 0 [⟨0, 0, 7⟩, ⟨3, 4, 9⟩] (by decide)⟩

/-- C7: on an empty table, `find_nearest_building` raises
`BuildingNotFoundError` (modelled as `Except.error`) and returns no result. -/
theorem findNearestBuilding_empty (e n : ℚ) :
    findNearestBuilding e n [] = Except.error "No buildings found in database" := rfl

/-! ## Weather data and historical collection (`backend/services/rainfall_service.py`) -/

/-- Runoff coefficient for UK roofs (`RUNOFF_COEFF` in `rainfall_service.py`). -/
def RUNOFF_COEFF : ℚ := 9 / 10

/-- A raw CSV row: the year extracted from the `date` column (format `YYYYMMDD`)
and the `precipitation` cell after `pd.to_numeric(..., errors='coerce')` —
`none` models a missing or non-numeric cell (`NaN` after coercion). -/
structure RawRow where
  year : Int
  precipRaw : Option ℚ
deriving DecidableEq, Repr

/-- A processed weather row, after `fillna(0)`. -/
structure WeatherRow where
  year : Int
  precip : ℚ
deriving DecidableEq, Repr

/-- The data-cleaning step of `load_weather_data`: every missing or non-numeric
precipitation value is replaced by `0` (`.fillna(0)`). -/
def loadWeatherData (rows : List RawRow) : List WeatherRow :=
  rows.map (fun r => { year := r.year, precip := r.precipRaw.getD 0 })

/-- Insert a year into an ascending list of distinct years, keeping it
duplicate-free. -/
def insertYear (y : Int) (l : List Int) : List Int :=
  match l with
  | [] => [y]
  | z :: zs => if y < z then y :: z :: zs else if y = z then z :: zs else z :: insertYear y zs

/-- The distinct years of a weather table in ascending order: the group keys of
`df.groupby('year')` (pandas sorts group keys). -/
def groupYears (rows : List WeatherRow) : List Int :=
  rows.foldr (fun r acc => insertYear r.year acc) []

/-- The annual precipitation of one year: the sum of the `precipitation` column
over that year's rows. -/
def yearTotal (rows : List WeatherRow) (y : Int) : ℚ :=
  ((rows.filter (fun r => r.year == y)).map (fun r => r.precip)).sum

/-- Model of `df.groupby('year')['precipitation'].sum()`: `(year, annual total)` pairs,
years ascending. -/
def annualPrecipitation (rows : List WeatherRow) : List (Int × ℚ) :=
  (groupYears rows).map (fun y => (y, yearTotal rows y))

/-- The inline collection formula of `rainfall_service.py`:
`area * (rainfall / 1000) * RUNOFF_COEFF * 1000`. -/
def collectionFormula (area rainfall : ℚ) : ℚ :=
  area * (rainfall / 1000) * RUNOFF_COEFF * 1000

/-- Mean of a `pandas` series, `sum / length`.  (On an empty series pandas yields
`NaN`; here `0 / 0 = 0`.  The claims below only use the non-empty case.) -/
def listMean (l : List ℚ) : ℚ := l.sum / l.length

/-- One entry of `annual_data` in the result of
`calculate_annual_rainfall_collection`. -/
structure AnnualEntry where
  year : Int
  rainfall_mm : ℚ
  collection_liters : ℚ
deriving DecidableEq, Repr

/-- The dictionary returned by `calculate_annual_rainfall_collection`. -/
structure AnnualCollectionResult where
  annual_data : List AnnualEntry
  average_annual_rainfall_mm : ℚ
  average_annual_collection_liters : ℚ
  years_available : List Int
deriving DecidableEq, Repr

/-- Model of `calculate_annual_rainfall_collection`: loads the weather table, sums daily
precipitation per year, converts each annual total to liters collected, and
adds the mean annual rainfall and the corresponding mean collection. -/
def calculateAnnualRainfallCollection (area : ℚ) (rows : List RawRow) :
    AnnualCollectionResult :=
  let df := loadWeatherData rows
  let ap := annualPrecipitation df
  let avg := listMean (ap.map Prod.snd)
  { annual_data := ap.map (fun p => ⟨p.1, p.2, collectionFormula area p.2⟩)
    average_annual_rainfall_mm := avg
    average_annual_collection_liters := collectionFormula area avg
    years_available := ap.map Prod.fst }

namespace rain_calc

/-- Constant `RUNOFF_COEFF` in `backend/processing/rain_calc.py`. -/
def RUNOFF_COEFF : ℚ := 9 / 10

/-- Model of `compute_rain` in `backend/processing/rain_calc.py`. -/
def compute_rain (area_m2 rainfall_mm : ℚ) : ℚ :=
  let rainfall_m := rainfall_mm / 1000
  area_m2 * rainfall_m * RUNOFF_COEFF * 1000

end rain_calc

/-- One entry of the dictionary returned by `calculate_predicted_collection`. -/
structure PredictedEntry where
  year : Int
  predicted_rainfall_mm : ℚ
  predicted_collection_liters : ℚ
deriving DecidableEq, Repr

/-- Model of `calculate_predicted_collection`: applies the inline collection formula to
every `(year, predicted rainfall)` pair. -/
def calculatePredictedCollection (area : ℚ) (predictedRainfall : List (Int × ℚ)) :
    List PredictedEntry :=
  predictedRainfall.map (fun p => ⟨p.1, p.2, collectionFormula area p.2⟩)

/-! ## Rainfall prediction (`predict_future_rainfall`)

The trained `RandomForestRegressor` composed with the fitted
`StandardScaler.transform` is modelled as an opaque parameter
`model : Int → ℚ → ℚ → ℚ → ℚ → ℚ` of the features
`(year, lag1, lag2, rolling_mean, rolling_std)`; the real square root inside
the rolling standard deviation as an opaque parameter `sqrtFn : ℚ → ℚ`
applied to the exact rolling variance.  No claim depends on the value either
produces, only on the NaN pattern and on the surrounding control flow. -/

/-- A feature row of the prediction table.  `none` models the `NaN` that
`shift` (for `lag1`/`lag2`) and a one-sample rolling standard deviation
produce. -/
structure FeatRow where
  year : Int
  rain : ℚ
  lag1 : Option ℚ
  lag2 : Option ℚ
  rollingMean : ℚ
  rollingStd : Option ℚ
deriving DecidableEq, Repr

/-- The 3-element rolling window ending at index `i` (`rolling(window=3,
min_periods=1)`): elements `max (i-2) 0 .. i`. -/
def rollingWindow (xs : List ℚ) (i : ℕ) : List ℚ :=
  (xs.take (i + 1)).drop (i - 2)

/-- Sample variance of a window with `ddof = 1` (the square of the pandas
rolling standard deviation); `none` models the `NaN` a one-sample window
yields. -/
def rollingVar (w : List ℚ) : Option ℚ :=
  if 2 ≤ w.length then
    some ((w.map (fun x => (x - listMean w) ^ 2)).sum / ((w.length : ℚ) - 1))
  else none

/-- Row `i` of the feature table built on lines 119-122 of
`rainfall_service.py`. -/
def mkFeatRow (sqrtFn : ℚ → ℚ) (totals : List (Int × ℚ)) (i : ℕ) : FeatRow :=
  let xs := totals.map Prod.snd
  { year := (totals.getD i (0, 0)).1
    rain := (totals.getD i (0, 0)).2
    lag1 := if 1 ≤ i then some (xs.getD (i - 1) 0) else none
    lag2 := if 2 ≤ i then some (xs.getD (i - 2) 0) else none
    rollingMean := listMean (rollingWindow xs i)
    rollingStd := (rollingVar (rollingWindow xs i)).map sqrtFn }

/-- The whole feature table over the annual series. -/
def featureTable (sqrtFn : ℚ → ℚ) (totals : List (Int × ℚ)) : List FeatRow :=
  (List.range totals.length).map (mkFeatRow sqrtFn totals)

/-- Model of `dropna()`: keep the rows where none of `lag1`, `lag2`, `rolling_std` is
`NaN` (`rolling_mean` never is, its window always holds the row itself). -/
def dropNA (rows : List FeatRow) : List FeatRow :=
  rows.filter (fun r => r.lag1.isSome && r.lag2.isSome && r.rollingStd.isSome)

/-- Model of `_simple_linear_prediction`: repeats the mean of its input frame's annual
totals for each of the next `years_ahead` years.  On an empty frame pandas
gives `last_year = NaN` and `int(last_year + i)` raises
`ValueError: cannot convert float NaN to integer`; modelled as
`Except.error`. -/
def simpleLinearPrediction (rows : List (Int × ℚ)) (yearsAhead : ℕ) :
    Except String (List (Int × ℚ)) :=
  match rows with
  | [] => Except.error "cannot convert float NaN to integer"
  | r :: rs =>
    let lastYear := rs.foldl (fun m p => max m p.1) r.1
    let avg := listMean ((r :: rs).map Prod.snd)
    Except.ok ((List.range yearsAhead).map (fun i => (lastYear + (i : Int) + 1, avg)))

/-- The recursive forecasting state:
`(current_lag1, current_lag2, current_rolling_mean, current_rolling_std)`. -/
structure PredState where
  lag1 : ℚ
  lag2 : ℚ
  rollingMean : ℚ
  rollingStd : ℚ
deriving DecidableEq, Repr

/-- One iteration of the forecasting loop (lines 157-174): predict, store the
zero-floored prediction, and feed the raw (unfloored) prediction back into the
state.  `0.95 = 19/20`. -/
def predictStep (model : Int → ℚ → ℚ → ℚ → ℚ → ℚ) (year : Int) (st : PredState) :
    ℚ × PredState :=
  let p := model year st.lag1 st.lag2 st.rollingMean st.rollingStd
  (max 0 p,
    { lag1 := p
      lag2 := st.lag1
      rollingMean := (st.rollingMean * 2 + p) / 3
      rollingStd := if 0 < st.rollingStd then st.rollingStd * (19 / 20) else st.rollingStd })

/-- The loop body of `for i in range(1, years_ahead + 1)`, with `i` the loop
counter and the second argument the remaining iterations. -/
def predictLoopAux (model : Int → ℚ → ℚ → ℚ → ℚ → ℚ) (lastYear : Int) :
    ℕ → ℕ → PredState → List (Int × ℚ)
  | _, 0, _ => []
  | i, fuel + 1, st =>
    let year := lastYear + (i : Int)
    let (v, st') := predictStep model year st
    (year, v) :: predictLoopAux model lastYear (i + 1) fuel st'

/-- The forecasting loop of `predict_future_rainfall`, lines 150-176. -/
def predictLoop (model : Int → ℚ → ℚ → ℚ → ℚ → ℚ) (lastYear : Int) (st : PredState)
    (yearsAhead : ℕ) : List (Int × ℚ) :=
  predictLoopAux model lastYear 1 yearsAhead st

/-- Model of `predict_future_rainfall`: build the lag/rolling feature table over the
annual series, drop the rows made `NaN` by `shift` and the one-sample rolling
standard deviation, fall back to `_simple_linear_prediction` on the surviving
frame when fewer than 3 rows survive, and otherwise seed the recursive
forecasting loop from the surviving frame's last row (its year is the maximum,
the frame being sorted by year with distinct years). -/
def predictFutureRainfall (model : Int → ℚ → ℚ → ℚ → ℚ → ℚ) (sqrtFn : ℚ → ℚ)
    (rows : List RawRow) (yearsAhead : ℕ) : Except String (List (Int × ℚ)) :=
  let totals := annualPrecipitation (loadWeatherData rows)
  let kept := dropNA (featureTable sqrtFn totals)
  if kept.length < 3 then
    simpleLinearPrediction (kept.map (fun r => (r.year, r.rain))) yearsAhead
  else
    match kept.getLast? with
    | none => Except.error "unreachable: a frame of length at least 3 has a last row"
    | some last =>
      Except.ok (predictLoop model last.year
        { lag1 := last.rain
          lag2 := last.lag1.getD 0
          rollingMean := last.rollingMean
          rollingStd := last.rollingStd.getD 0 } yearsAhead)

/-- The number of annual samples (distinct years) in a weather history. -/
def numAnnualSamples (rows : List RawRow) : ℕ :=
  (annualPrecipitation (loadWeatherData rows)).length

/-- The branch condition of line 127 of `rainfall_service.py`: the
random-forest model is trained iff at least 3 feature rows survive
`dropna()`. -/
def trainsModel (sqrtFn : ℚ → ℚ) (rows : List RawRow) : Prop :=
  ¬ (dropNA (featureTable sqrtFn (annualPrecipitation (loadWeatherData rows)))).length < 3

instance (sqrtFn : ℚ → ℚ) (rows : List RawRow) : Decidable (trainsModel sqrtFn rows) :=
  inferInstanceAs (Decidable (¬ _ < 3))

theorem mem_insertYear (y z : Int) (l : List Int) :
    z ∈ insertYear y l ↔ z = y ∨ z ∈ l := by
  induction l with
  | nil => simp [insertYear]
  | cons w ws ih =>
    by_cases h1 : y < w
    · simp [insertYear, h1]
    · by_cases h2 : y = w
      · subst h2
        simp [insertYear, h1]
      · simp only [insertYear, if_neg h1, if_neg h2, List.mem_cons, ih]
        tauto

theorem mem_groupYears (rows : List WeatherRow) (y : Int) :
    y ∈ groupYears rows ↔ ∃ r ∈ rows, r.year = y := by
  induction rows with
  | nil => simp [groupYears]
  | cons r rs ih =>
    simp only [groupYears, List.foldr_cons] at ih ⊢
    rw [mem_insertYear]
    simp [ih]
    tauto

/-- C9: annual totals treat unparseable daily observations as zero rainfall —
for every year, the total over the cleaned table equals the sum of just the
parseable precipitation values of that year. -/
theorem loadWeatherData_fills_zero (rows : List RawRow) (y : Int) :
    yearTotal (loadWeatherData rows) y
      = ((rows.filter (fun r => r.year == y)).filterMap (fun r => r.precipRaw)).sum := by
  induction rows with
  | nil => rfl
  | cons r rs ih =>
    simp only [yearTotal, loadWeatherData, List.map_cons, List.filter_cons] at ih ⊢
    by_cases h : r.year = y
    · cases hp : r.precipRaw with
      | none => simpa [h, hp] using ih
      | some v => simpa [h, hp] using ih
    · simpa [h] using ih

/-- C5: `calculate_annual_rainfall_collection` groups daily precipitation by
year, sums each year, maps each annual total `R` to `A * (R / 1000) * 0.9 *
1000` liters, and also returns the mean annual rainfall together with the
corresponding mean collection volume. -/
theorem calculateAnnualRainfallCollection_spec (area : ℚ) (rows : List RawRow)
    (h : rows ≠ []) :
    (∀ y : Int,
      y ∈ (calculateAnnualRainfallCollection area rows).years_available
        ↔ ∃ r ∈ rows, r.year = y) ∧
    (∀ en ∈ (calculateAnnualRainfallCollection area rows).annual_data,
      en.rainfall_mm = yearTotal (loadWeatherData rows) en.year ∧
      en.collection_liters = area * (en.rainfall_mm / 1000) * (9 / 10) * 1000) ∧
    ((calculateAnnualRainfallCollection area rows).annual_data.map AnnualEntry.year
      = (calculateAnnualRainfallCollection area rows).years_available) ∧
    ((calculateAnnualRainfallCollection area rows).average_annual_rainfall_mm
      = ((calculateAnnualRainfallCollection area rows).annual_data.map
          AnnualEntry.rainfall_mm).sum
        / (calculateAnnualRainfallCollection area rows).years_available.length) ∧
    ((calculateAnnualRainfallCollection area rows).average_annual_collection_liters
      = area
        * ((calculateAnnualRainfallCollection area rows).average_annual_rainfall_mm / 1000)
        * (9 / 10) * 1000) := by
  refine ⟨?_, ?_, ?_, ?_, ?_⟩
  · intro y
    have hya : (calculateAnnualRainfallCollection area rows).years_available
        = groupYears (loadWeatherData rows) := by
      simp [calculateAnnualRainfallCollection, annualPrecipitation, List.map_map,
        Function.comp_def]
    rw [hya, mem_groupYears]
    constructor
    · rintro ⟨r, hr, hy⟩
      simp only [loadWeatherData, List.mem_map] at hr
      obtain ⟨s, hs, rfl⟩ := hr
      exact ⟨s, hs, hy⟩
    · rintro ⟨s, hs, hy⟩
      exact ⟨⟨s.year, s.precipRaw.getD 0⟩, List.mem_map.mpr ⟨s, hs, rfl⟩, hy⟩
  · intro en hen
    simp only [calculateAnnualRainfallCollection, annualPrecipitation, List.map_map,
      List.mem_map] at hen
    obtain ⟨y, _, rfl⟩ := hen
    exact ⟨rfl, rfl⟩
  · simp [calculateAnnualRainfallCollection, annualPrecipitation, List.map_map]
  · simp [calculateAnnualRainfallCollection, annualPrecipitation, List.map_map,
      listMean, Function.comp_def]
  · rfl

/-- Closed instance of `calculateAnnualRainfallCollection_spec`: one building of
area 50 m², two daily observations. -/
theorem calculateAnnualRainfallCollection_spec_witness :
    (([⟨2000, some 3⟩, ⟨2001, none⟩] : List RawRow) ≠ []) ∧
    ((∀ y : Int,
      y ∈ (calculateAnnualRainfallCollection 50 [⟨2000, some 3⟩, ⟨2001, none⟩]).years_available
        ↔ ∃ r ∈ ([⟨2000, some 3⟩, ⟨2001, none⟩] : List RawRow), r.year = y) ∧
    (∀ en ∈ (calculateAnnualRainfallCollection 50 [⟨2000, some 3⟩, ⟨2001, none⟩]).annual_data,
      en.rainfall_mm
          = yearTotal (loadWeatherData [⟨2000, some 3⟩, ⟨2001, none⟩]) en.year ∧
      en.collection_liters = 50 * (en.rainfall_mm / 1000) * (9 / 10) * 1000) ∧
    ((calculateAnnualRainfallCollection 50 [⟨2000, some 3⟩, ⟨2001, none⟩]).annual_data.map
        AnnualEntry.year
      = (calculateAnnualRainfallCollection 50 [⟨2000, some 3⟩, ⟨2001, none⟩]).years_available) ∧
    ((calculateAnnualRainfallCollection 50 [⟨2000, some 3⟩, ⟨2001, none⟩]).average_annual_rainfall_mm
      = ((calculateAnnualRainfallCollection 50 [⟨2000, some 3⟩, ⟨2001, none⟩]).annual_data.map
          AnnualEntry.rainfall_mm).sum
        / (calculateAnnualRainfallCollection 50
            [⟨2000, some 3⟩, ⟨2001, none⟩]).years_available.length) ∧
    ((calculateAnnualRainfallCollection 50
          [⟨2000, some 3⟩, ⟨2001, none⟩]).average_annual_collection_liters
      = 50
        * ((calculateAnnualRainfallCollection 50
            [⟨2000, some 3⟩, ⟨2001, none⟩]).average_annual_rainfall_mm / 1000)
        * (9 / 10) * 1000)) :=
  ⟨by decide, calculateAnnualRainfallCollection_spec 50 [⟨2000, some 3⟩, ⟨2001, none⟩]
    (by decide)⟩

/-- C10: the inline formula used by `calculate_predicted_collection` (and by
`calculate_annual_rainfall_collection`) computes exactly the liters of
`processing.rain_calc.compute_rain`, and the output dictionary has exactly the
year keys of its input. -/
theorem calculatePredictedCollection_refines_compute_rain (area : ℚ)
    (pred : List (Int × ℚ)) (rows : List RawRow) :
    ((calculatePredictedCollection area pred).map PredictedEntry.year
        = pred.map Prod.fst) ∧
    (∀ en ∈ calculatePredictedCollection area pred,
        en.predicted_collection_liters
          = rain_calc.compute_rain area en.predicted_rainfall_mm) ∧
    (∀ en ∈ (calculateAnnualRainfallCollection area rows).annual_data,
        en.collection_liters = rain_calc.compute_rain area en.rainfall_mm) := by
  refine ⟨?_, ?_, ?_⟩
  · simp [calculatePredictedCollection, List.map_map]
  · intro en hen
    simp only [calculatePredictedCollection, List.mem_map] at hen
    obtain ⟨p, _, rfl⟩ := hen
    rfl
  · intro en hen
    simp only [calculateAnnualRainfallCollection, annualPrecipitation, List.map_map,
      List.mem_map] at hen
    obtain ⟨y, _, rfl⟩ := hen
    rfl

theorem rollingWindow_length (xs : List ℚ) (i : ℕ) (h : i < xs.length) :
    (rollingWindow xs i).length = (i + 1) - (i - 2) := by
  simp [rollingWindow]
  omega

theorem rollingVar_isSome (w : List ℚ) :
    (rollingVar w).isSome = decide (2 ≤ w.length) := by
  by_cases h : 2 ≤ w.length <;> simp [rollingVar, h]

theorem mkFeatRow_keep (sqrtFn : ℚ → ℚ) (totals : List (Int × ℚ)) (i : ℕ)
    (h : i < totals.length) :
    ((mkFeatRow sqrtFn totals i).lag1.isSome && (mkFeatRow sqrtFn totals i).lag2.isSome
        && (mkFeatRow sqrtFn totals i).rollingStd.isSome)
      = decide (2 ≤ i) := by
  have hw := rollingWindow_length (totals.map Prod.snd) i (by simpa using h)
  by_cases h2 : 2 ≤ i
  · have h1 : 1 ≤ i := by omega
    have hlen : 2 ≤ (rollingWindow (totals.map Prod.snd) i).length := by omega
    simp [mkFeatRow, h1, h2, rollingVar_isSome, hlen]
  · by_cases h1 : 1 ≤ i
    · simp [mkFeatRow, h1, h2]
    · simp [mkFeatRow, h1, h2]

theorem dropNA_featureTable (sqrtFn : ℚ → ℚ) (totals : List (Int × ℚ)) :
    dropNA (featureTable sqrtFn totals)
      = ((List.range totals.length).filter (fun i => decide (2 ≤ i))).map
          (mkFeatRow sqrtFn totals) := by
  unfold dropNA featureTable
  rw [List.filter_map]
  congr 1
  apply List.filter_congr
  intro i hi
  exact mkFeatRow_keep sqrtFn totals i (List.mem_range.mp hi)

theorem length_filter_range_two_le (n : ℕ) :
    ((List.range n).filter (fun i => decide (2 ≤ i))).length = n - 2 := by
  induction n with
  | zero => rfl
  | succ n ih =>
    rw [List.range_succ, List.filter_append, List.length_append, ih]
    by_cases h : 2 ≤ n <;> simp [h] <;> omega

theorem dropNA_featureTable_length (sqrtFn : ℚ → ℚ) (totals : List (Int × ℚ)) :
    (dropNA (featureTable sqrtFn totals)).length = totals.length - 2 := by
  rw [dropNA_featureTable, List.length_map, length_filter_range_two_le]

/-- C2 counterexample: a history with exactly 3 annual samples does not train
the model; the fallback repeats the last surviving annual total (3), which is
not the prediction of the (here constantly zero) model and is not the
historical mean (2) either. -/
theorem predictFutureRainfall_three_samples_counterexample :
    numAnnualSamples [⟨2000, some 1⟩, ⟨2001, some 2⟩, ⟨2002, some 3⟩] = 3 ∧
    ¬ trainsModel (fun _ => 0) [⟨2000, some 1⟩, ⟨2001, some 2⟩, ⟨2002, some 3⟩] ∧
    predictFutureRainfall (fun _ _ _ _ _ => 0) (fun _ => 0)
        [⟨2000, some 1⟩, ⟨2001, some 2⟩, ⟨2002, some 3⟩] 2
      = Except.ok [(2003, 3), (2004, 3)] ∧
    listMean ((annualPrecipitation (loadWeatherData
        [⟨2000, some 1⟩, ⟨2001, some 2⟩, ⟨2002, some 3⟩])).map Prod.snd) = 2 := by
  refine ⟨by decide, by decide, ?_, ?_⟩
  · simp +decide [predictFutureRainfall, featureTable, mkFeatRow, dropNA, rollingWindow,
      rollingVar, listMean, annualPrecipitation, groupYears, insertYear, yearTotal,
      loadWeatherData, simpleLinearPrediction, List.range_succ]
  · simp +decide [listMean, annualPrecipitation, groupYears, insertYear, yearTotal,
      loadWeatherData]
    norm_num

/-- C2 (amended): the random-forest model is trained iff at least 3 feature
rows survive the NaN drop, i.e. iff the history has at least 5 annual samples;
otherwise `predict_future_rainfall` returns `_simple_linear_prediction` of the
surviving frame (all but the first two years), which repeats that frame's mean
annual total. -/
theorem predictFutureRainfall_threshold (model : Int → ℚ → ℚ → ℚ → ℚ → ℚ)
    (sqrtFn : ℚ → ℚ) (rows : List RawRow) (yearsAhead : ℕ) :
    (trainsModel sqrtFn rows ↔ 5 ≤ numAnnualSamples rows) ∧
    (¬ trainsModel sqrtFn rows →
      predictFutureRainfall model sqrtFn rows yearsAhead
        = simpleLinearPrediction
            ((dropNA (featureTable sqrtFn (annualPrecipitation (loadWeatherData rows)))).map
              (fun r => (r.year, r.rain))) yearsAhead) := by
  constructor
  · unfold trainsModel numAnnualSamples
    rw [dropNA_featureTable_length]
    omega
  · intro hnt
    have hlt : (dropNA (featureTable sqrtFn
        (annualPrecipitation (loadWeatherData rows)))).length < 3 := by
      by_contra hge
      exact hnt hge
    simp only [predictFutureRainfall]
    rw [if_pos hlt]

/-- Closed instance of `predictFutureRainfall_threshold` at a 4-year history:
the fallback branch is taken. -/
theorem predictFutureRainfall_threshold_witness :
    predictFutureRainfall (fun _ _ _ _ _ => 0) (fun _ => 0)
        [⟨2000, some 1⟩, ⟨2001, some 2⟩, ⟨2002, some 3⟩, ⟨2003, some 4⟩] 7
      = simpleLinearPrediction
          ((dropNA (featureTable (fun _ => 0) (annualPrecipitation (loadWeatherData
              [⟨2000, some 1⟩, ⟨2001, some 2⟩, ⟨2002, some 3⟩, ⟨2003, some 4⟩])))).map
            (fun r => (r.year, r.rain))) 7 :=
  (predictFutureRainfall_threshold (fun _ _ _ _ _ => 0) (fun _ => 0)
    [⟨2000, some 1⟩, ⟨2001, some 2⟩, ⟨2002, some 3⟩, ⟨2003, some 4⟩] 7).2 (by decide)

/-- C3 (code behaviour at the spec's single-year input): with exactly one
annual sample every feature row is dropped, `_simple_linear_prediction`
receives an empty frame, `last_year` is `NaN`, and `int(last_year + i)` raises
`ValueError` instead of returning the mean-repeat dictionary. -/
theorem predictFutureRainfall_single_year_raises (model : Int → ℚ → ℚ → ℚ → ℚ → ℚ)
    (sqrtFn : ℚ → ℚ) (rows : List RawRow) (yearsAhead : ℕ)
    (h : numAnnualSamples rows = 1) :
    predictFutureRainfall model sqrtFn rows yearsAhead
      = Except.error "cannot convert float NaN to integer" := by
  have hlen : (dropNA (featureTable sqrtFn
      (annualPrecipitation (loadWeatherData rows)))).length = 0 := by
    rw [dropNA_featureTable_length]
    unfold numAnnualSamples at h
    omega
  have hnil : dropNA (featureTable sqrtFn (annualPrecipitation (loadWeatherData rows)))
      = [] := List.length_eq_zero.mp hlen
  simp only [predictFutureRainfall]
  rw [hnil]
  simp [simpleLinearPrediction]

/-- Closed instance of `predictFutureRainfall_single_year_raises`: one daily
observation in the year 2000. -/
theorem predictFutureRainfall_single_year_raises_witness :
    predictFutureRainfall (fun _ _ _ _ _ => 0) (fun _ => 0) [⟨2000, some 5⟩] 10
      = Except.error "cannot convert float NaN to integer" :=
  predictFutureRainfall_single_year_raises (fun _ _ _ _ _ => 0) (fun _ => 0)
    [⟨2000, some 5⟩] 10 (by decide)

theorem predictLoopAux_nonneg (model : Int → ℚ → ℚ → ℚ → ℚ → ℚ) (lastYear : Int) :
    ∀ (fuel i : ℕ) (st : PredState) (p : Int × ℚ),
      p ∈ predictLoopAux model lastYear i fuel st → 0 ≤ p.2 := by
  intro fuel
  induction fuel with
  | zero =>
    intro i st p hp
    simp [predictLoopAux] at hp
  | succ fuel ih =>
    intro i st p hp
    simp only [predictLoopAux, predictStep, List.mem_cons] at hp
    rcases hp with hp | hp
    · rw [hp]
      exact le_max_left 0 _
    · exact ih _ _ _ hp

theorem simpleLinearPrediction_nonneg (rows' : List (Int × ℚ)) (ya : ℕ)
    (out : List (Int × ℚ)) (hpos : ∀ p ∈ rows', 0 ≤ p.2)
    (hok : simpleLinearPrediction rows' ya = Except.ok out) :
    ∀ p ∈ out, 0 ≤ p.2 := by
  match rows' with
  | [] => simp [simpleLinearPrediction] at hok
  | r :: rs =>
    simp only [simpleLinearPrediction, Except.ok.injEq] at hok
    subst hok
    intro p hp
    simp only [List.mem_map] at hp
    obtain ⟨i, _, rfl⟩ := hp
    simp only [listMean]
    apply div_nonneg
    · apply List.sum_nonneg
      intro x hx
      simp only [List.mem_map] at hx
      obtain ⟨q, hq, rfl⟩ := hx
      exact hpos q hq
    · exact Nat.cast_nonneg _

theorem yearTotal_nonneg (rows : List RawRow) (y : Int)
    (h : ∀ r ∈ rows, 0 ≤ r.precipRaw.getD 0) :
    0 ≤ yearTotal (loadWeatherData rows) y := by
  apply List.sum_nonneg
  intro x hx
  simp only [List.mem_map] at hx
  obtain ⟨r', hr', rfl⟩ := hx
  have hr'' : r' ∈ loadWeatherData rows := List.mem_of_mem_filter hr'
  simp only [loadWeatherData, List.mem_map] at hr''
  obtain ⟨s, hs, rfl⟩ := hr''
  exact h s hs

theorem annualPrecipitation_nonneg (rows : List RawRow)
    (h : ∀ r ∈ rows, 0 ≤ r.precipRaw.getD 0) :
    ∀ q ∈ annualPrecipitation (loadWeatherData rows), 0 ≤ q.2 := by
  intro q hq
  simp only [annualPrecipitation, List.mem_map] at hq
  obtain ⟨y, _, rfl⟩ := hq
  exact yearTotal_nonneg rows y h

theorem mem_featureTable_rain (sqrtFn : ℚ → ℚ) (totals : List (Int × ℚ)) (r : FeatRow)
    (hr : r ∈ featureTable sqrtFn totals) : ∃ q ∈ totals, r.rain = q.2 := by
  simp only [featureTable, List.mem_map] at hr
  obtain ⟨i, hi, rfl⟩ := hr
  have hi' : i < totals.length := List.mem_range.mp hi
  refine ⟨totals.getD i (0, 0), ?_, rfl⟩
  rw [List.getD_eq_getElem totals (0, 0) hi']
  exact List.getElem_mem hi'

/-- C4 counterexample: a history whose third year has a negative daily
precipitation value (kept verbatim by `pd.to_numeric`) makes the fallback
return a negative prediction — the fallback has no zero-floor. -/
theorem predictFutureRainfall_negative_counterexample :
    predictFutureRainfall (fun _ _ _ _ _ => 0) (fun _ => 0)
        [⟨2000, some 1⟩, ⟨2001, some 1⟩, ⟨2002, some (-5)⟩] 1
      = Except.ok [(2003, -5)] ∧ ((-5 : ℚ) < 0) := by
  constructor
  · simp +decide [predictFutureRainfall, featureTable, mkFeatRow, dropNA, rollingWindow,
      rollingVar, listMean, annualPrecipitation, groupYears, insertYear, yearTotal,
      loadWeatherData, simpleLinearPrediction, List.range_succ]
  · norm_num

/-- C4 (amended): when every daily precipitation value of the history is
nonnegative, every predicted rainfall value returned by
`predict_future_rainfall` is nonnegative — on the model path unconditionally
via the `max(0, ·)` floor, on the fallback path because the repeated mean of
nonnegative annual totals is nonnegative (the fallback itself has no floor). -/
theorem predictFutureRainfall_nonneg (model : Int → ℚ → ℚ → ℚ → ℚ → ℚ)
    (sqrtFn : ℚ → ℚ) (rows : List RawRow) (yearsAhead : ℕ)
    (h : ∀ r ∈ rows, 0 ≤ r.precipRaw.getD 0) :
    ∀ out, predictFutureRainfall model sqrtFn rows yearsAhead = Except.ok out →
      ∀ p ∈ out, 0 ≤ p.2 := by
  intro out hout
  simp only [predictFutureRainfall] at hout
  by_cases hb : (dropNA (featureTable sqrtFn
      (annualPrecipitation (loadWeatherData rows)))).length < 3
  · rw [if_pos hb] at hout
    apply simpleLinearPrediction_nonneg _ _ _ _ hout
    intro p hp
    simp only [List.mem_map] at hp
    obtain ⟨r, hr, rfl⟩ := hp
    have hr2 : r ∈ featureTable sqrtFn (annualPrecipitation (loadWeatherData rows)) :=
      List.mem_of_mem_filter hr
    obtain ⟨q, hq, hrain⟩ := mem_featureTable_rain _ _ _ hr2
    have hq2 := annualPrecipitation_nonneg rows h q hq
    simpa [hrain] using hq2
  · rw [if_neg hb] at hout
    rcases hgl : (dropNA (featureTable sqrtFn
        (annualPrecipitation (loadWeatherData rows)))).getLast? with _ | last
    · rw [hgl] at hout
      simp at hout
    · rw [hgl] at hout
      simp only [Except.ok.injEq] at hout
      subst hout
      intro p hp
      exact predictLoopAux_nonneg model last.year yearsAhead 1 _ p hp

/-- Closed instance of `predictFutureRainfall_nonneg` at a nonnegative 3-year
history, evaluated at the first returned prediction `(2003, 4)`. -/
theorem predictFutureRainfall_nonneg_witness : (0 : ℚ) ≤ ((2003 : Int), (4 : ℚ)).2 :=
  predictFutureRainfall_nonneg (fun _ _ _ _ _ => 0) (fun _ => 0)
    [⟨2000, some 1⟩, ⟨2001, some 2⟩, ⟨2002, some 4⟩] 2 (by decide)
    [(2003, 4), (2004, 4)]
    (by simp +decide [predictFutureRainfall, featureTable, mkFeatRow, dropNA, rollingWindow,
      rollingVar, listMean, annualPrecipitation, groupYears, insertYear, yearTotal,
      loadWeatherData, simpleLinearPrediction, List.range_succ])
    ((2003 : Int), (4 : ℚ)) (by simp)

/-- One state update as the claim words it: the new raw prediction `p` becomes
`lag1`, the previous `lag1` becomes `lag2`, the rolling mean becomes
`(2 * mean + p) / 3`, and the rolling standard deviation is multiplied by the
decay factor `0.95` whenever it is positive. -/
def specNextState (p : ℚ) (st : PredState) : PredState :=
  { lag1 := p
    lag2 := st.lag1
    rollingMean := (2 * st.rollingMean + p) / 3
    rollingStd := if 0 < st.rollingStd then st.rollingStd * (19 / 20) else st.rollingStd }

/-- The state after `k` updates of the recurrence, the loop counter having
started at `i + 1`: the `(k+1)`-th update feeds the raw prediction for year
`lastYear + i + k + 1` back into the state. -/
def forecastStateFrom (model : Int → ℚ → ℚ → ℚ → ℚ → ℚ) (lastYear : Int) (i : ℕ)
    (st : PredState) : ℕ → PredState
  | 0 => st
  | k + 1 =>
    let prev := forecastStateFrom model lastYear i st k
    specNextState
      (model (lastYear + ((i + k + 1 : ℕ) : Int)) prev.lag1 prev.lag2 prev.rollingMean
        prev.rollingStd)
      prev

theorem predictStep_snd (model : Int → ℚ → ℚ → ℚ → ℚ → ℚ) (year : Int) (st : PredState) :
    (predictStep model year st).2
      = specNextState (model year st.lag1 st.lag2 st.rollingMean st.rollingStd) st := by
  simp [predictStep, specNextState, mul_comm]

theorem forecastStateFrom_shift (model : Int → ℚ → ℚ → ℚ → ℚ → ℚ) (lastYear : Int) :
    ∀ (k i : ℕ) (st : PredState),
      forecastStateFrom model lastYear i st (k + 1)
        = forecastStateFrom model lastYear (i + 1)
            (specNextState
              (model (lastYear + ((i + 1 : ℕ) : Int)) st.lag1 st.lag2 st.rollingMean
                st.rollingStd)
              st) k := by
  intro k
  induction k with
  | zero => intro i st; rfl
  | succ k ih =>
    intro i st
    have hyr : i + (k + 1) + 1 = (i + 1) + k + 1 := by omega
    show specNextState _ (forecastStateFrom model lastYear i st (k + 1))
      = specNextState _ (forecastStateFrom model lastYear (i + 1) _ k)
    rw [hyr, ih]

theorem predictLoopAux_eq_spec (model : Int → ℚ → ℚ → ℚ → ℚ → ℚ) (lastYear : Int) :
    ∀ (fuel i : ℕ) (st : PredState),
      predictLoopAux model lastYear (i + 1) fuel st
        = (List.range fuel).map (fun k =>
            (lastYear + ((i + k + 1 : ℕ) : Int),
              max 0 (model (lastYear + ((i + k + 1 : ℕ) : Int))
                (forecastStateFrom model lastYear i st k).lag1
                (forecastStateFrom model lastYear i st k).lag2
                (forecastStateFrom model lastYear i st k).rollingMean
                (forecastStateFrom model lastYear i st k).rollingStd))) := by
  intro fuel
  induction fuel with
  | zero => intro i st; rfl
  | succ fuel ih =>
    intro i st
    rw [List.range_succ_eq_map]
    simp only [List.map_cons, List.map_map]
    show (lastYear + ((i + 1 : ℕ) : Int),
        (predictStep model (lastYear + ((i + 1 : ℕ) : Int)) st).1)
      :: predictLoopAux model lastYear (i + 1 + 1) fuel
          (predictStep model (lastYear + ((i + 1 : ℕ) : Int)) st).2 = _
    rw [predictStep_snd, ih]
    congr 1
    apply List.map_congr_left
    intro k hk
    have harith : i + (k + 1) + 1 = i + 1 + k + 1 := by omega
    simp only [Function.comp_apply]
    rw [forecastStateFrom_shift, harith]

/-- C6: on the model path the loop forecasts the `yearsAhead` consecutive
years after `lastYear`; the value stored for the `(k+1)`-th future year is the
zero-floored model output on the state reached after `k` updates of the
recurrence `specNextState`: the raw prediction becomes `lag1`, the previous
`lag1` becomes `lag2`, the rolling mean becomes `(2 * mean + p) / 3`, and a
positive rolling standard deviation is multiplied by `0.95`.  The second part
ties the loop to `predict_future_rainfall`: whenever the model is trained, the
result is the loop run from the last surviving feature row. -/
theorem predictLoop_recurrence (model : Int → ℚ → ℚ → ℚ → ℚ → ℚ) (sqrtFn : ℚ → ℚ)
    (rows : List RawRow) (yearsAhead : ℕ) (lastYear : Int) (st : PredState) :
    (predictLoop model lastYear st yearsAhead
      = (List.range yearsAhead).map (fun k =>
          (lastYear + ((k + 1 : ℕ) : Int),
            max 0 (model (lastYear + ((k + 1 : ℕ) : Int))
              (forecastStateFrom model lastYear 0 st k).lag1
              (forecastStateFrom model lastYear 0 st k).lag2
              (forecastStateFrom model lastYear 0 st k).rollingMean
              (forecastStateFrom model lastYear 0 st k).rollingStd)))) ∧
    (trainsModel sqrtFn rows →
      ∀ last, (dropNA (featureTable sqrtFn
          (annualPrecipitation (loadWeatherData rows)))).getLast? = some last →
        predictFutureRainfall model sqrtFn rows yearsAhead
          = Except.ok (predictLoop model last.year
              ⟨last.rain, last.lag1.getD 0, last.rollingMean, last.rollingStd.getD 0⟩
              yearsAhead)) := by
  constructor
  · have h := predictLoopAux_eq_spec model lastYear yearsAhead 0 st
    simpa [predictLoop] using h
  · intro hT last hl
    have hge : ¬ (dropNA (featureTable sqrtFn
        (annualPrecipitation (loadWeatherData rows)))).length < 3 := hT
    simp only [predictFutureRainfall]
    rw [if_neg hge, hl]

/-- Closed instance of `predictLoop_recurrence` at a 5-year history: the model
is trained and the result is the loop seeded from the 2004 feature row. -/
theorem predictLoop_recurrence_witness :
    predictFutureRainfall (fun _ _ _ _ _ => 0) (fun _ => 0)
        [⟨2000, some 1⟩, ⟨2001, some 2⟩, ⟨2002, some 3⟩, ⟨2003, some 4⟩, ⟨2004, some 5⟩] 3
      = Except.ok (predictLoop (fun _ _ _ _ _ => 0) 2004 ⟨5, 4, 4, 0⟩ 3) :=
  (predictLoop_recurrence (fun _ _ _ _ _ => 0) (fun _ => 0)
    [⟨2000, some 1⟩, ⟨2001, some 2⟩, ⟨2002, some 3⟩, ⟨2003, some 4⟩, ⟨2004, some 5⟩]
    3 0 ⟨0, 0, 0, 0⟩).2 (by decide) ⟨2004, 5, some 4, some 3, 4, some 0⟩ (by
      simp +decide [dropNA, featureTable, mkFeatRow, rollingWindow, rollingVar, listMean,
        annualPrecipitation, groupYears, insertYear, yearTotal, loadWeatherData,
        List.range_succ]
      norm_num)

/-! ## The `/api/geocode` route (`backend/routes/geocoding.py`) -/

/-- The JSON value found under the `"address"` key of the request body: a
string, or some non-string value.  A missing body or key is `none` at the use
site. -/
inductive AddressValue
  | str (s : String)
  | nonString
deriving DecidableEq, Repr

/-- Model of `if not address or not isinstance(address, str)`: the request is accepted
only when the address is a non-empty string (`not address` is true for `None`
and for the empty string). -/
def validAddress : Option AddressValue → Option String
  | some (AddressValue.str s) => if s = "" then none else some s
  | _ => none

/-- Outcome of `geocode_address`: coordinates, a `GeocodingError`, or any
other exception. -/
inductive GeoOutcome
  | ok (easting northing : ℚ)
  | geocodingError
  | unexpectedError
deriving DecidableEq, Repr

/-- The JSON response body: an error object carrying a message under the `error` key, or the success
payload of the route. -/
inductive ResponseBody
  | errorObj (msg : String)
  | success (address : String) (easting northing building_area : ℚ)
      (annual : AnnualCollectionResult) (predicted : List PredictedEntry)
deriving Repr

/-- The `/api/geocode` handler, composing the pipeline stages and translating
their failures to HTTP statuses.  `db` is the outcome of opening and reading
the buildings database (`Except.error` both for a missing file and for a
sqlite error, which the source raises as `BuildingNotFoundError`); `weather`
the outcome of reading the weather CSV, whose failure each rainfall stage
catches (both stages read the same file, so one outcome serves both);
`model`/`sqrtFn` as in `predictFutureRainfall`.  Returns
`(HTTP status, JSON body)`. -/
def geocodeRoute (body : Option AddressValue) (geo : GeoOutcome)
    (db : Except String (List Building)) (weather : Except String (List RawRow))
    (model : Int → ℚ → ℚ → ℚ → ℚ → ℚ) (sqrtFn : ℚ → ℚ) : ℕ × ResponseBody :=
  match validAddress body with
  | none => (400, ResponseBody.errorObj "address is required")
  | some address =>
    match geo with
    | GeoOutcome.geocodingError => (400, ResponseBody.errorObj "Invalid address")
    | GeoOutcome.unexpectedError => (500, ResponseBody.errorObj "Internal server error")
    | GeoOutcome.ok easting northing =>
      match (match db with
             | Except.error msg => Except.error msg
             | Except.ok bs => findNearestBuilding easting northing bs) with
      | Except.error _ => (500, ResponseBody.errorObj "No buildings found in database")
      | Except.ok (building_area, _) =>
        match weather with
        | Except.error msg =>
          (500, ResponseBody.errorObj ("Error calculating annual rainfall: " ++ msg))
        | Except.ok wrows =>
          match predictFutureRainfall model sqrtFn wrows 10 with
          | Except.error msg =>
            (500, ResponseBody.errorObj ("Error predicting future rainfall: " ++ msg))
          | Except.ok predicted =>
            (200, ResponseBody.success address easting northing building_area
              (calculateAnnualRainfallCollection building_area wrows)
              (calculatePredictedCollection building_area predicted))

/-- C8: every response status is 200, 400 or 500; the status is 400 exactly
for a missing/empty/non-string address or a `GeocodingError`; every non-200
response carries an error object; and a 200 response carries the success
payload (coordinates, building area, historical and predicted estimates) and
occurs only when every stage succeeded. -/
theorem geocodeRoute_spec (body : Option AddressValue) (geo : GeoOutcome)
    (db : Except String (List Building)) (weather : Except String (List RawRow))
    (model : Int → ℚ → ℚ → ℚ → ℚ → ℚ) (sqrtFn : ℚ → ℚ) :
    ((geocodeRoute body geo db weather model sqrtFn).1 = 200 ∨
     (geocodeRoute body geo db weather model sqrtFn).1 = 400 ∨
     (geocodeRoute body geo db weather model sqrtFn).1 = 500) ∧
    ((geocodeRoute body geo db weather model sqrtFn).1 = 400 ↔
      (validAddress body = none ∨
       (validAddress body ≠ none ∧ geo = GeoOutcome.geocodingError))) ∧
    ((geocodeRoute body geo db weather model sqrtFn).1 ≠ 200 →
      ∃ msg, (geocodeRoute body geo db weather model sqrtFn).2
        = ResponseBody.errorObj msg) ∧
    ((geocodeRoute body geo db weather model sqrtFn).1 = 200 →
      ∃ address easting northing area wrows predicted,
        validAddress body = some address ∧ geo = GeoOutcome.ok easting northing ∧
        weather = Except.ok wrows ∧
        predictFutureRainfall model sqrtFn wrows 10 = Except.ok predicted ∧
        (geocodeRoute body geo db weather model sqrtFn).2
          = ResponseBody.success address easting northing area
              (calculateAnnualRainfallCollection area wrows)
              (calculatePredictedCollection area predicted)) := by
  rcases hva : validAddress body with _ | address
  · simp [geocodeRoute, hva]
  · rcases geo with ⟨e, n⟩ | _ | _
    · rcases hb : (match db with
          | Except.error msg => Except.error msg
          | Except.ok bs => findNearestBuilding e n bs) with msg | p
      · simp [geocodeRoute, hva, hb]
      · rcases p with ⟨area, d⟩
        rcases hw : weather with msg | wrows
        · simp [geocodeRoute, hva, hb]
        · rcases hp : predictFutureRainfall model sqrtFn wrows 10 with msg | predicted
          · simp [geocodeRoute, hva, hb, hp]
          · refine ⟨Or.inl ?_, ?_, ?_, ?_⟩
            · simp [geocodeRoute, hva, hb, hp]
            · simp [geocodeRoute, hva, hb, hp]
            · intro hne
              exact absurd (by simp [geocodeRoute, hva, hb, hp]) hne
            · intro _
              refine ⟨address, e, n, area, wrows, predicted, rfl, rfl, rfl, hp, ?_⟩
              simp [geocodeRoute, hva, hb, hp]
    · simp [geocodeRoute, hva]
    · simp [geocodeRoute, hva]

/-- Closed instance of `geocodeRoute_spec`: a geocoding failure yields an
error object. -/
theorem geocodeRoute_spec_witness :
    ∃ msg, (geocodeRoute (some (AddressValue.str "10 Downing St"))
        GeoOutcome.geocodingError (Except.error "no db") (Except.error "no csv")
        (fun _ _ _ _ _ => 0) (fun _ => 0)).2 = ResponseBody.errorObj msg :=
  (geocodeRoute_spec (some (AddressValue.str "10 Downing St"))
    GeoOutcome.geocodingError (Except.error "no db") (Except.error "no csv")
    (fun _ _ _ _ _ => 0) (fun _ => 0)).2.2.1 (by decide)

end HydraX
